import Mathlib

/-!
Verification of `verify_rate_limit.py`, the bandwidth-throttling test
harness of the underground-node-network repository.

The harness is embedded shallowly:

* Wall-clock times are rationals (`ℚ`); Python float arithmetic on
  timestamps is modelled by exact rational arithmetic, and the literal
  `0.8` by `4 / 5`.
* The three external role processes (entrypoint, room, client) are opaque.
  Their observable interaction with the harness — the early liveness
  check, the possible `BrokenPipeError` on `stdin.write`, the sequence of
  `readline` results together with `poll()` liveness, and the final
  `time.time()` after `wrapper.wait()` — is collected in an `Env` record,
  one per call of `run_test`.
* Each iteration of the scan loop is one `ReadEvent`: either a (nonempty)
  line read from the client output together with the `time.time()` value
  current at that iteration, or an empty read (`readline` returned `""`)
  together with the `poll()` liveness at that moment.
* Side effects of `run_test` — `ep.kill()` / `client.kill()`, the
  diagnostic prints relevant to the claims, the diagnostic throughput
  value, and the fixture directory state — are returned explicitly in a
  `RunState` record.  Debug-only prints of the scan loop (the `DEBUG:`
  lines and the formatted duration/speed report) are not tracked; no
  claim mentions them.
* Python's `ZeroDivisionError` at `file_size_kb / actual_duration` is
  modelled by an explicit `RunOutcome.zeroDiv` branch (Lean division is
  total, so the fallible division is made explicit), and a scan loop that
  never observes an exited process is `RunOutcome.hang`.
-/

/-- The readiness sentinel the harness searches for in the client output
(line 84 of the source). -/
def sentinel : String := "UNN DOWNLOAD READY"

/-- Python's substring test `pat in s`: the character sequence of `pat`
occurs contiguously inside the character sequence of `s`. -/
def containsSubstr (s pat : String) : Bool := decide (pat.toList <:+: s.toList)

/-- One iteration of the output-scan loop of `run_test` (lines 71-86):
either `readline` returned the nonempty line `s` (with `t` the value
`time.time()` would return at that iteration), or it returned no data and
`alive` says whether `poll()` reported the process still running. -/
inductive ReadEvent where
  | line (s : String) (t : ℚ)
  | noData (alive : Bool)
deriving Repr, DecidableEq

/-- The loop-exit condition of the scan loop: an empty read while the
process has exited (lines 73-76). -/
def isBreakEvent : ReadEvent → Bool
  | ReadEvent.noData true => true
  | _ => false

/-- An event carrying a line that contains the sentinel. -/
def isSentinelLine : ReadEvent → Bool
  | ReadEvent.line s _ => containsSubstr s sentinel
  | _ => false

/-- The scan loop of `run_test` (lines 71-87), as a function of the finite
trace of read events.  `acc` is the current value of `start_transfer`.
Returns `some start_transfer` if the loop breaks while consuming the
trace, `none` if the trace is exhausted with the loop still running (the
unbounded-blocking case: the real loop would still be waiting). -/
def scanLoop : List ReadEvent → Option ℚ → Option (Option ℚ)
  | [], _ => none
  | ReadEvent.line s t :: rest, acc =>
      scanLoop rest (if containsSubstr s sentinel then some t else acc)
  | ReadEvent.noData false :: rest, acc => scanLoop rest acc
  | ReadEvent.noData true :: _, acc => some acc

/-- The value of `start_transfer` after consuming a trace without
breaking (helper for reasoning about `scanLoop` on appended traces). -/
def scanAcc : List ReadEvent → Option ℚ → Option ℚ
  | [], acc => acc
  | ReadEvent.line s t :: rest, acc =>
      scanAcc rest (if containsSubstr s sentinel then some t else acc)
  | ReadEvent.noData _ :: rest, acc => scanAcc rest acc

/-- The fixture directory tree built by the setup phase (lines 13-27):
the payload file `room_files/test_<n>.bin` (only its byte length is
relevant), and the two identity credential files `users/maurits` and
`users/myroom`. -/
structure Fixture where
  payloadSize : ℕ
  mauritsKey : String
  myroomKey : String
deriving Repr, DecidableEq

/-- The setup phase writes `os.urandom(file_size_kb * 1024)` into the
payload file (lines 19-20) and the stripped template public key
(`f.read().strip()`, lines 22-27) into both credential files.
`pubkeyFile` is the raw content of `tests/integration/test_user_key.pub`;
Python `str.strip()` is `String.trim`. -/
def mkFixture (file_size_kb : ℕ) (pubkeyFile : String) : Fixture :=
  { payloadSize := file_size_kb * 1024
    mauritsKey := pubkeyFile.trim
    myroomKey := pubkeyFile.trim }

/-- The filesystem state of one fixture directory name: `none` means the
directory does not exist. -/
structure DirState where
  existing : Option Fixture
deriving Repr, DecidableEq

/-- The setup phase of `run_test` (lines 13-27): if a directory of the
test name exists it is removed (`shutil.rmtree`), then the fresh tree is
created and populated. -/
def runSetup (st : DirState) (file_size_kb : ℕ) (pubkeyFile : String) : DirState :=
  match st.existing with
  | some _ => { existing := some (mkFixture file_size_kb pubkeyFile) }
  | none => { existing := some (mkFixture file_size_kb pubkeyFile) }

/-- Entrypoint listening port (line 29): `44322 + (file_size_kb % 100)`. -/
def ep_port (file_size_kb : ℕ) : ℕ := 44322 + file_size_kb % 100

/-- Room listening port (line 30): `44323 + (file_size_kb % 100)`. -/
def client_port (file_size_kb : ℕ) : ℕ := 44323 + file_size_kb % 100

/-- The observable behaviour of the opaque external processes during one
`run_test` call. -/
structure Env where
  /-- Raw content of the template credential file read at line 22. -/
  pubkeyFile : String
  /-- Result of `wrapper.poll() is not None` at line 50: the client
  process exited during the fixed 3-second delay. -/
  earlyExit : Bool
  /-- `wrapper.returncode` printed on the early-exit path (line 51). -/
  earlyCode : Int
  /-- `wrapper.stdout.read()`: the captured client output printed on the
  early-exit and broken-pipe paths (lines 52 and 63). -/
  wrapperOut : String
  /-- Whether `wrapper.stdin.write` at line 59 raises `BrokenPipeError`. -/
  brokenPipe : Bool
  /-- The trace of read events seen by the scan loop (lines 71-87). -/
  events : List ReadEvent
  /-- `time.time()` at line 89, after `wrapper.wait()`. -/
  endTime : ℚ
deriving Repr, DecidableEq

/-- How one `run_test` call ends: returning a boolean, raising
`ZeroDivisionError` at line 98, or blocking forever in the scan loop. -/
inductive RunOutcome where
  | hang
  | zeroDiv
  | ret (b : Bool)
deriving Repr, DecidableEq

/-- The side effects of one `run_test` call: whether `ep.kill()` and
`client.kill()` ran, the claim-relevant diagnostic prints in order, the
diagnostic throughput value of line 98 (when computed), and the final
state of the fixture directory. -/
structure RunState where
  epKilled : Bool
  clientKilled : Bool
  printed : List String
  reportedSpeed : Option ℚ
  fixtureDir : Option Fixture
deriving Repr, DecidableEq

/-- `run_test(file_size_kb, limit_str, expected_duration)` (lines 9-114).
`limit_str` is only passed to the opaque room process (line 41), so it
does not influence the embedded control flow. -/
def run_test (file_size_kb : ℕ) (limit_str : String) (expected_duration : ℚ)
    (env : Env) : RunOutcome × RunState :=
  -- 1. Setup (lines 13-27): stale tree removed, fresh fixture written.
  let fix : Fixture := mkFixture file_size_kb env.pubkeyFile
  -- 2./3. entrypoint and room started on ports `ep_port file_size_kb`,
  -- `client_port file_size_kb` (lines 29-43): opaque.
  -- 4. client started; liveness check after the fixed delay (line 50).
  if env.earlyExit then
    (RunOutcome.ret false,
     { epKilled := true, clientKilled := true,
       printed := [("Wrapper exited early with code " ++ toString env.earlyCode),
                   env.wrapperOut],
       reportedSpeed := none, fixtureDir := some fix })
  else if env.brokenPipe then
    -- lines 61-66
    (RunOutcome.ret false,
     { epKilled := true, clientKilled := true,
       printed := ["Broken pipe when sending command. Wrapper output:",
                   env.wrapperOut],
       reportedSpeed := none, fixtureDir := some fix })
  else
    match scanLoop env.events none with
    | none =>
      -- the loop never observes an exited process: blocks forever
      (RunOutcome.hang,
       { epKilled := false, clientKilled := false, printed := [],
         reportedSpeed := none, fixtureDir := some fix })
    | some none =>
      -- lines 91-95: sentinel never seen
      (RunOutcome.ret false,
       { epKilled := true, clientKilled := true,
         printed := ["Failed to trigger download"],
         reportedSpeed := none, fixtureDir := some fix })
    | some (some start_transfer) =>
      let actual_duration := env.endTime - start_transfer
      if actual_duration = 0 then
        -- line 98 raises ZeroDivisionError before any cleanup
        (RunOutcome.zeroDiv,
         { epKilled := false, clientKilled := false, printed := [],
           reportedSpeed := none, fixtureDir := some fix })
      else
        let speed_kb_s : ℚ := (file_size_kb : ℚ) / actual_duration
        -- 6. Cleanup (lines 104-106), then the 20% margin check (line 109)
        if actual_duration ≥ expected_duration * (4 / 5) then
          (RunOutcome.ret true,
           { epKilled := true, clientKilled := true,
             printed := ["SUCCESS: Rate limiting works!"],
             reportedSpeed := some speed_kb_s, fixtureDir := none })
        else
          (RunOutcome.ret false,
           { epKilled := true, clientKilled := true,
             printed := ["FAILURE: Rate limiting is not effective."],
             reportedSpeed := some speed_kb_s, fixtureDir := none })

/-- How the whole harness process ends: blocked forever, killed by an
unhandled exception, or exiting with a code. -/
inductive MainOutcome where
  | hangs
  | crash
  | code (n : ℕ)
deriving Repr, DecidableEq

/-- The `__main__` block (lines 116-130): runs the two configured test
cases in sequence and aggregates.  Returns the list of file sizes whose
test case was actually invoked, and the process outcome: exit code
`1` if `success` ended up false, `0` otherwise (falling off the end of
the script).  A hanging or crashing `run_test` stops the sequence. -/
def harnessMain (env1 env2 : Env) : List ℕ × MainOutcome :=
  match (run_test 50 "10KB" 5 env1).1 with
  | RunOutcome.hang => ([50], MainOutcome.hangs)
  | RunOutcome.zeroDiv => ([50], MainOutcome.crash)
  | RunOutcome.ret b1 =>
    match (run_test 150 "30KB" 5 env2).1 with
    | RunOutcome.hang => ([50, 150], MainOutcome.hangs)
    | RunOutcome.zeroDiv => ([50, 150], MainOutcome.crash)
    | RunOutcome.ret b2 =>
      ([50, 150], MainOutcome.code (if b1 && b2 then 0 else 1))

/-! ### Concrete environments used in witnesses and counterexamples -/

/-- Client process exits during the 3-second settle delay. -/
def envC1 : Env :=
  { pubkeyFile := "PK", earlyExit := true, earlyCode := 1, wrapperOut := "boom",
    brokenPipe := false, events := [], endTime := 0 }

/-- Nominal successful run: sentinel at time 0, process exit observed,
final time 5. -/
def envC3 : Env :=
  { pubkeyFile := "PK", earlyExit := false, earlyCode := 0, wrapperOut := "",
    brokenPipe := false,
    events := [ReadEvent.line "UNN DOWNLOAD READY" 0, ReadEvent.noData true],
    endTime := 5 }

/-- Client exits without ever printing the sentinel. -/
def envC5 : Env :=
  { pubkeyFile := "PK", earlyExit := false, earlyCode := 0, wrapperOut := "quit",
    brokenPipe := false, events := [ReadEvent.noData true], endTime := 0 }

/-- Broken pipe when the `/get` command is written. -/
def envC6 : Env :=
  { pubkeyFile := "PK", earlyExit := false, earlyCode := 0, wrapperOut := "pipe",
    brokenPipe := true, events := [], endTime := 0 }

/-- Nominal successful run used for the aggregation witness. -/
def envC7 : Env :=
  { pubkeyFile := "PK", earlyExit := false, earlyCode := 0, wrapperOut := "",
    brokenPipe := false,
    events := [ReadEvent.line "UNN DOWNLOAD READY" 0, ReadEvent.noData true],
    endTime := 5 }

/-- Sentinel seen at the same wall-clock instant as the final timestamp:
`end_transfer - start_transfer` is exactly zero. -/
def envC10 : Env :=
  { pubkeyFile := "PK", earlyExit := false, earlyCode := 0, wrapperOut := "",
    brokenPipe := false,
    events := [ReadEvent.line "UNN DOWNLOAD READY" 5, ReadEvent.noData true],
    endTime := 5 }

/-! ### Helper lemmas about the scan loop -/

/-- Consuming a break-free prefix only updates the accumulator. -/
theorem scanLoop_append (pre xs : List ReadEvent) (acc : Option ℚ)
    (h : ∀ e ∈ pre, isBreakEvent e = false) :
    scanLoop (pre ++ xs) acc = scanLoop xs (scanAcc pre acc) := by
  induction pre generalizing acc with
  | nil => simp [scanAcc]
  | cons e rest ih =>
    cases e with
    | line s t =>
      simp only [List.cons_append, scanLoop, scanAcc]
      exact ih _ (fun e he => h e (List.mem_cons_of_mem _ he))
    | noData alive =>
      cases alive with
      | false =>
        simp only [List.cons_append, scanLoop, scanAcc]
        exact ih _ (fun e he => h e (List.mem_cons_of_mem _ he))
      | true =>
        have hb := h (ReadEvent.noData true) (List.mem_cons_self _ _)
        simp [isBreakEvent] at hb

/-- A trace with no sentinel line but with a break event returns the
accumulator it was started with. -/
theorem scanLoop_no_sentinel (rest : List ReadEvent) (acc : Option ℚ)
    (h1 : ∀ e ∈ rest, isSentinelLine e = false)
    (h2 : ∃ e ∈ rest, isBreakEvent e = true) :
    scanLoop rest acc = some acc := by
  induction rest with
  | nil => simp at h2
  | cons e rest ih =>
    have htail : (∀ x ∈ rest, isSentinelLine x = false) :=
      fun x hx => h1 x (List.mem_cons_of_mem _ hx)
    cases e with
    | line s t =>
      have hs : containsSubstr s sentinel = false := by
        simpa [isSentinelLine] using h1 _ (List.mem_cons_self _ _)
      have h2' : ∃ x ∈ rest, isBreakEvent x = true := by
        rcases h2 with ⟨x, hx, hb⟩
        rcases List.mem_cons.mp hx with rfl | hm
        · simp [isBreakEvent] at hb
        · exact ⟨x, hm, hb⟩
      simp only [scanLoop, hs, if_neg]
      simpa using ih htail h2'
    | noData alive =>
      cases alive with
      | false =>
        have h2' : ∃ x ∈ rest, isBreakEvent x = true := by
          rcases h2 with ⟨x, hx, hb⟩
          rcases List.mem_cons.mp hx with rfl | hm
          · simp [isBreakEvent] at hb
          · exact ⟨x, hm, hb⟩
        simpa [scanLoop] using ih htail h2'
      | true => simp [scanLoop]

/-! ### Claims about the scan loop -/

/-- Claim C2, counterexample: on a trace where the sentinel substring
occurs in two lines (at times 1 and 2) before the process exits, the
recorded `start_transfer` is the time of the second occurrence, not the
first — line 86 reassigns `start_transfer` unconditionally on every
sentinel line. -/
theorem scanLoop_first_sentinel_cex :
    scanLoop [ReadEvent.line "UNN DOWNLOAD READY" 1,
              ReadEvent.line "UNN DOWNLOAD READY" 2,
              ReadEvent.noData true] none = some (some 2) ∧
    ¬ scanLoop [ReadEvent.line "UNN DOWNLOAD READY" 1,
                ReadEvent.line "UNN DOWNLOAD READY" 2,
                ReadEvent.noData true] none = some (some 1) := by
  constructor
  · decide
  · intro h
    have h2 : scanLoop [ReadEvent.line "UNN DOWNLOAD READY" 1,
                ReadEvent.line "UNN DOWNLOAD READY" 2,
                ReadEvent.noData true] none = some (some 2) := by decide
    rw [h2] at h
    have : (1 : ℚ) = 2 := by injection h with h; injection h with h; exact h.symm
    norm_num at this

/-- Claim C2, amended: `start_timestamp` is the wall-clock time recorded
at the LAST sentinel occurrence consumed before the loop breaks; every
later occurrence overwrites the earlier value.  Formally: if the loop
consumes a break-free prefix, then a sentinel-bearing line at time `t`,
and then a trace with no further sentinel lines that contains a break
event, the recorded start time is `t`, whatever sentinel occurrences the
prefix contained. -/
theorem scanLoop_last_sentinel (pre : List ReadEvent) (s : String) (t : ℚ)
    (rest : List ReadEvent) (acc : Option ℚ)
    (hpre : ∀ e ∈ pre, isBreakEvent e = false)
    (hs : containsSubstr s sentinel = true)
    (hrest : ∀ e ∈ rest, isSentinelLine e = false)
    (hbreak : ∃ e ∈ rest, isBreakEvent e = true) :
    scanLoop (pre ++ ReadEvent.line s t :: rest) acc = some (some t) := by
  rw [scanLoop_append pre _ acc hpre]
  simp only [scanLoop, hs, if_pos]
  exact scanLoop_no_sentinel rest (some t) hrest hbreak

/-- Claim C2, witness for the amended statement: prefix holding an
earlier sentinel line at time 1, final sentinel at time 2. -/
theorem scanLoop_last_sentinel_witness :
    scanLoop ([ReadEvent.line "UNN DOWNLOAD READY" 1] ++
              ReadEvent.line "UNN DOWNLOAD READY" 2 ::
              [ReadEvent.noData true]) none = some (some 2) :=
  scanLoop_last_sentinel [ReadEvent.line "UNN DOWNLOAD READY" 1]
    "UNN DOWNLOAD READY" 2 [ReadEvent.noData true] none
    (by decide) (by decide) (by decide) (by decide)

/-- Claim C4: the scan loop terminates exactly when some read event is an
empty read with the process already exited; in particular, on a trace in
which the process is alive at every empty read (and in particular if it
never exits), the loop never breaks — there is no timeout or bound. -/
theorem scanLoop_terminates_iff (evs : List ReadEvent) (acc : Option ℚ) :
    (scanLoop evs acc).isSome = true ↔ ∃ e ∈ evs, isBreakEvent e = true := by
  induction evs generalizing acc with
  | nil => simp [scanLoop]
  | cons e rest ih =>
    cases e with
    | line s t => simp [scanLoop, isBreakEvent, ih]
    | noData alive => cases alive <;> simp [scanLoop, isBreakEvent, ih]

/-! ### Claims about run_test -/

/-- Claim C1, counterexample: on the early-exit path the call returns
`False` and kills both processes, but the fixture directory still exists
when `run_test` returns — `shutil.rmtree` (line 106) is not reached on
this path, so directory cleanup is not unconditional. -/
theorem run_test_cleanup_cex :
    (run_test 50 "10KB" 5 envC1).1 = RunOutcome.ret false ∧
    (run_test 50 "10KB" 5 envC1).2.epKilled = true ∧
    (run_test 50 "10KB" 5 envC1).2.clientKilled = true ∧
    (run_test 50 "10KB" 5 envC1).2.fixtureDir ≠ none := by
  simp [run_test, envC1]

/-- Claim C1, amended: on every path on which `run_test` returns (success,
validator failure, early process exit, broken pipe, trigger not detected)
both the entrypoint and room processes are killed — and only on those
paths; but the fixture directory is removed exactly when the run reaches
the duration check (sentinel seen, process exited, nonzero elapsed time);
on the early-exit, broken-pipe and trigger-not-detected paths the
directory persists (it is removed as stale by the next run of the same
file size, line 14-15). -/
theorem run_test_cleanup (file_size_kb : ℕ) (limit_str : String)
    (expected_duration : ℚ) (env : Env) :
    (((run_test file_size_kb limit_str expected_duration env).2.epKilled = true ∧
      (run_test file_size_kb limit_str expected_duration env).2.clientKilled = true) ↔
      ∃ b, (run_test file_size_kb limit_str expected_duration env).1 = RunOutcome.ret b) ∧
    ((run_test file_size_kb limit_str expected_duration env).2.fixtureDir = none ↔
      (env.earlyExit = false ∧ env.brokenPipe = false ∧
       ∃ t, scanLoop env.events none = some (some t) ∧ env.endTime ≠ t)) := by
  simp only [run_test]
  cases h1 : env.earlyExit with
  | true => simp
  | false =>
    cases h2 : env.brokenPipe with
    | true => simp
    | false =>
      rcases h3 : scanLoop env.events none with _ | (_ | t) <;> simp only [h3]
      · simp
      · simp
      · by_cases h4 : env.endTime - t = 0
        · rw [sub_eq_zero] at h4
          simp [h4, sub_self]
        · have h4' : env.endTime ≠ t := fun he => h4 (by rw [he, sub_self])
          by_cases h5 : env.endTime - t ≥ expected_duration * (4 / 5) <;>
            simp [h4, h5, h4']

/-- Claim C3: once the duration check is reached (no early exit, no broken
pipe, sentinel seen at time `t`, process exited at `env.endTime`, nonzero
elapsed time), `run_test` returns `True` iff
`elapsed >= expected_duration * 0.8`; the throughput value is computed
(and reported) but plays no part in the verdict. -/
theorem run_test_duration_check (file_size_kb : ℕ) (limit_str : String)
    (expected_duration : ℚ) (env : Env) (t : ℚ)
    (h1 : env.earlyExit = false) (h2 : env.brokenPipe = false)
    (h3 : scanLoop env.events none = some (some t))
    (h4 : env.endTime - t ≠ 0) :
    ((run_test file_size_kb limit_str expected_duration env).1 = RunOutcome.ret true ↔
      env.endTime - t ≥ expected_duration * (4 / 5)) ∧
    (run_test file_size_kb limit_str expected_duration env).2.reportedSpeed =
      some ((file_size_kb : ℚ) / (env.endTime - t)) := by
  by_cases h5 : env.endTime - t ≥ expected_duration * (4 / 5) <;>
    simp [run_test, h1, h2, h3, h4, h5]

/-- Claim C3, witness: sentinel at time 0, exit at time 5, expected
duration 5: the margin check `5 ≥ 5 * 0.8` passes and the reported
throughput is `50 / 5 = 10` KB/s. -/
theorem run_test_duration_check_witness :
    (run_test 50 "10KB" 5 envC3).1 = RunOutcome.ret true ∧
    (run_test 50 "10KB" 5 envC3).2.reportedSpeed = some 10 := by
  have h := run_test_duration_check 50 "10KB" 5 envC3 0 rfl rfl (by decide)
    (by norm_num [envC3])
  refine ⟨h.1.mpr (by norm_num [envC3]), h.2.trans ?_⟩
  norm_num [envC3]

/-- Claim C5: when the scan loop ends without the sentinel ever having
been seen, `run_test` returns `False`, its only claim-relevant diagnostic
is the fixed message `Failed to trigger download`, and both processes are
killed.  The exit status of the client process is not consulted on this
path (the embedding does not even carry it past the loop, exactly as the
code ignores `wrapper.returncode` there). -/
theorem run_test_trigger_not_detected (file_size_kb : ℕ) (limit_str : String)
    (expected_duration : ℚ) (env : Env)
    (h1 : env.earlyExit = false) (h2 : env.brokenPipe = false)
    (h3 : scanLoop env.events none = some none) :
    (run_test file_size_kb limit_str expected_duration env).1 = RunOutcome.ret false ∧
    (run_test file_size_kb limit_str expected_duration env).2.printed =
      ["Failed to trigger download"] ∧
    (run_test file_size_kb limit_str expected_duration env).2.epKilled = true ∧
    (run_test file_size_kb limit_str expected_duration env).2.clientKilled = true := by
  simp [run_test, h1, h2, h3]

/-- Claim C5, witness: the client exits immediately with no output
lines. -/
theorem run_test_trigger_not_detected_witness :
    (run_test 50 "10KB" 5 envC5).1 = RunOutcome.ret false ∧
    (run_test 50 "10KB" 5 envC5).2.printed = ["Failed to trigger download"] ∧
    (run_test 50 "10KB" 5 envC5).2.epKilled = true ∧
    (run_test 50 "10KB" 5 envC5).2.clientKilled = true :=
  run_test_trigger_not_detected 50 "10KB" 5 envC5 rfl rfl (by decide)

/-- Claim C6: if the client has already exited at the liveness check, or
the write of the `/get` command hits a broken pipe, `run_test` returns
`False`, the captured client output is among the printed diagnostics, and
no duration judgment is made (the throughput diagnostic of the validator
stage is never computed). -/
theorem run_test_early_abort (file_size_kb : ℕ) (limit_str : String)
    (expected_duration : ℚ) (env : Env)
    (h : env.earlyExit = true ∨ env.brokenPipe = true) :
    (run_test file_size_kb limit_str expected_duration env).1 = RunOutcome.ret false ∧
    env.wrapperOut ∈ (run_test file_size_kb limit_str expected_duration env).2.printed ∧
    (run_test file_size_kb limit_str expected_duration env).2.reportedSpeed = none := by
  by_cases h1 : env.earlyExit = true
  · simp [run_test, h1]
  · have h2 : env.brokenPipe = true := h.resolve_left h1
    have h1' : env.earlyExit = false := by simpa using h1
    simp [run_test, h1', h2]

/-- Claim C6, witness: broken pipe on the command write. -/
theorem run_test_early_abort_witness :
    (run_test 50 "10KB" 5 envC6).1 = RunOutcome.ret false ∧
    envC6.wrapperOut ∈ (run_test 50 "10KB" 5 envC6).2.printed ∧
    (run_test 50 "10KB" 5 envC6).2.reportedSpeed = none :=
  run_test_early_abort 50 "10KB" 5 envC6 (Or.inr rfl)

/-- Claim C10: the throughput division at line 98 has no zero guard.  If
the duration stage is reached with `end_transfer` equal to
`start_transfer`, `run_test` raises an unhandled `ZeroDivisionError`
instead of returning a verdict; whenever the elapsed time is nonzero the
division is safe and a boolean verdict is returned. -/
theorem run_test_zero_elapsed (file_size_kb : ℕ) (limit_str : String)
    (expected_duration : ℚ) (env : Env) (t : ℚ)
    (h1 : env.earlyExit = false) (h2 : env.brokenPipe = false)
    (h3 : scanLoop env.events none = some (some t)) :
    (env.endTime = t →
      (run_test file_size_kb limit_str expected_duration env).1 = RunOutcome.zeroDiv) ∧
    (env.endTime ≠ t →
      ∃ b, (run_test file_size_kb limit_str expected_duration env).1 =
        RunOutcome.ret b) := by
  constructor
  · intro h4
    simp [run_test, h1, h2, h3, h4]
  · intro h4
    have h4' : env.endTime - t ≠ 0 := sub_ne_zero.mpr h4
    by_cases h5 : env.endTime - t ≥ expected_duration * (4 / 5)
    · exact ⟨true, by simp [run_test, h1, h2, h3, h4', h5]⟩
    · exact ⟨false, by simp [run_test, h1, h2, h3, h4', h5]⟩

/-- Claim C10, witness: sentinel recorded at time 5 and final timestamp
also 5 — the call ends in `ZeroDivisionError`. -/
theorem run_test_zero_elapsed_witness :
    (run_test 50 "10KB" 5 envC10).1 = RunOutcome.zeroDiv :=
  (run_test_zero_elapsed 50 "10KB" 5 envC10 5 rfl rfl (by decide)).1 rfl

/-! ### Claims about the top-level harness, the ports and the setup -/

/-- Claim C7: whenever both configured test cases return a verdict, both
are invoked — the second runs even when the first fails — and the harness
exits with code 0 exactly when both passed, with code 1 exactly when at
least one failed. -/
theorem harnessMain_aggregate (env1 env2 : Env) (b1 b2 : Bool)
    (h1 : (run_test 50 "10KB" 5 env1).1 = RunOutcome.ret b1)
    (h2 : (run_test 150 "30KB" 5 env2).1 = RunOutcome.ret b2) :
    (harnessMain env1 env2).1 = [50, 150] ∧
    ((harnessMain env1 env2).2 = MainOutcome.code 0 ↔ b1 = true ∧ b2 = true) ∧
    ((harnessMain env1 env2).2 = MainOutcome.code 1 ↔ ¬(b1 = true ∧ b2 = true)) := by
  simp only [harnessMain, h1, h2]
  cases b1 <;> cases b2 <;> simp

/-- Claim C7, witness: both runs succeed, the harness invokes both cases
and exits 0. -/
theorem harnessMain_aggregate_witness :
    (harnessMain envC7 envC7).1 = [50, 150] ∧
    (harnessMain envC7 envC7).2 = MainOutcome.code 0 := by
  have hscan : scanLoop [ReadEvent.line "UNN DOWNLOAD READY" 0,
      ReadEvent.noData true] none = some (some 0) := by decide
  have e1 : (run_test 50 "10KB" 5 envC7).1 = RunOutcome.ret true := by
    norm_num [run_test, envC7, hscan]
  have e2 : (run_test 150 "30KB" 5 envC7).1 = RunOutcome.ret true := by
    norm_num [run_test, envC7, hscan]
  have h := harnessMain_aggregate envC7 envC7 true true e1 e2
  exact ⟨h.1, h.2.1.mpr ⟨rfl, rfl⟩⟩

/-- Claim C8: the two ports are deterministic functions of
`file_size_kb % 100` plus the fixed bases 44322 and 44323, so two test
cases receive identical entrypoint and room ports iff their file sizes
agree mod 100. -/
theorem port_assignment_iff (a b : ℕ) :
    (ep_port a = ep_port b ∧ client_port a = client_port b) ↔
      a % 100 = b % 100 := by
  unfold ep_port client_port
  omega

/-- Claim C9: setup first removes any stale fixture directory of the same
name (the resulting state is the same whatever was there before), then
creates a fixture whose payload file is exactly `file_size_kb * 1024`
bytes and whose two identity credential files `users/maurits` and
`users/myroom` hold the same stripped template public key. -/
theorem runSetup_spec (st : DirState) (file_size_kb : ℕ) (pubkeyFile : String) :
    runSetup st file_size_kb pubkeyFile =
      runSetup { existing := none } file_size_kb pubkeyFile ∧
    (runSetup st file_size_kb pubkeyFile).existing =
      some (mkFixture file_size_kb pubkeyFile) ∧
    (mkFixture file_size_kb pubkeyFile).payloadSize = file_size_kb * 1024 ∧
    (mkFixture file_size_kb pubkeyFile).mauritsKey =
      (mkFixture file_size_kb pubkeyFile).myroomKey ∧
    (mkFixture file_size_kb pubkeyFile).mauritsKey = pubkeyFile.trim := by
  rcases st with ⟨_ | f⟩ <;> simp [runSetup, mkFixture]
